import Mathlib

/-!
Shallow embedding of the mediamtx-pro recording subsystem:
the recorder `Manager` (pro/recorder/manager.go, pro/recorder task file),
the health checker (pro/healthcheck/checker.go), the record cleaner
(pro/recordcleaner), and the HTTP record endpoints (pro/api/api_v2.go).

External effects (path-manager lookups, device HTTP probes, the color
checker, filesystem calls, clocks, UUID generation) are modelled as
explicit environment records that carry the observed results of those
calls; everything else follows the Go source line by line.
Go maps are modelled as association lists with unique keys, Go string
comparison as byte-wise (here: character-wise) lexicographic order,
`time.Time` and `time.Duration` as integer nanoseconds.
-/

namespace MediamtxPro

/-- Byte-wise lexicographic strict order on character lists, matching Go's
`<` on (ASCII) strings. -/
def lexLt : List Char → List Char → Bool
  | [], [] => false
  | [], _ :: _ => true
  | _ :: _, [] => false
  | a :: as, b :: bs =>
      if a.val < b.val then true
      else if b.val < a.val then false
      else lexLt as bs

/-- Go string comparison `a < b` (byte-wise lexicographic; all strings the
program compares are ASCII). -/
def strLt (a b : String) : Bool := lexLt a.data b.data

/-- The regular expression `^\d{8}$` used by the record cleaner's
`datePattern` (recordcleaner): exactly eight ASCII digits. -/
def datePatternMatch (s : String) : Bool :=
  s.data.length = 8 && s.data.all fun c => 48 ≤ c.val && c.val ≤ 57

/-- Go map lookup `m[k]` on the association-list model. -/
def mapLookup (l : List (String × α)) (k : String) : Option α :=
  List.lookup k l

/-- Go `delete(m, k)` on the association-list model. -/
def mapDelete (l : List (String × α)) (k : String) : List (String × α) :=
  l.filter fun p => p.1 ≠ k

/-- Go map assignment `m[k] = v` on the association-list model. -/
def mapInsert (l : List (String × α)) (k : String) (v : α) : List (String × α) :=
  mapDelete l k ++ [(k, v)]

/-- Go `filepath.Ext(name) != ""`: the final slash-separated element of
`name` contains a dot. Scans the reversed character list. -/
def hasDotBeforeSlash : List Char → Bool
  | [] => false
  | c :: rest =>
      if c = '/' then false
      else if c = '.' then true
      else hasDotBeforeSlash rest

/-- Whether Go's `filepath.Ext` returns a non-empty extension for `s`. -/
def filepathHasExt (s : String) : Bool := hasDotBeforeSlash s.data.reverse

/-- Relevant fields of `conf.Path` (internal/conf/path.go, Pro extension):
recording policy and retention knobs read by the recorder manager, the
health checker and the record cleaner. Durations are nanoseconds. -/
structure ConfPath where
  record : Bool
  deviceType : String
  recordMinThreshold : Int
  autoRecordTaskOutDuration : Int
  recordClearDaysAgo : Int
  source : String
  deriving DecidableEq

namespace Recorder

/-- `recorder.Task` (pro recorder task file): the static inputs plus the
runtime fields set by `Task.Start`. Times are integer nanoseconds. -/
structure Task where
  id : String
  pathName : String
  format : String
  recordPath : String
  timeout : Int
  customFileName : String
  isAutoRecord : Bool
  fileName : String
  fullPath : String
  relativePath : String
  fileURL : String
  startTime : Int
  endTime : Int
  deriving DecidableEq

/-- `recorder.captureState`: per-path smart-recording counters. -/
structure CaptureState where
  pingCount : Int
  colorfulValue : Int
  deriving DecidableEq

/-- `captureState.reset()`: both counters back to zero. -/
def CaptureState.reset : CaptureState := ⟨0, 0⟩

/-- `recorder.StartParams` of `StartRecording`. `taskOutMinutes` is the
JSON float64, modelled as a rational. -/
structure StartParams where
  name : String
  videoFormat : String
  taskOutMinutes : ℚ
  fileName : String
  deriving DecidableEq

/-- `recorder.StartResponse`. -/
structure StartResponse where
  existed : Bool
  success : Bool
  id : String
  name : String
  fileName : String
  filePath : String
  fullPath : String
  fileURL : String
  taskEndTime : Int
  deriving DecidableEq

/-- `recorder.StopResponse`. -/
structure StopResponse where
  success : Bool
  name : String
  fileName : String
  filePath : String
  fullPath : String
  fileURL : String
  deriving DecidableEq

/-- Mutable state of `recorder.Manager` together with its configuration:
the `tasks` registry, the cached base URL, the path configurations used
by the auto-record loop, and the package-level `captureStates` map. -/
structure Manager where
  recordPath : String
  baseURL : String
  pathConfs : List (String × ConfPath)
  tasks : List (String × Task)
  captureStates : List (String × CaptureState)
  deriving DecidableEq

/-- One nanosecond count for Go's `time.Minute`. -/
def minuteNs : Int := 60000000000

/-- `time.Duration(minutes * float64(time.Minute))` for a minute count
carried as a rational (Go float64): multiply and truncate to integer
nanoseconds. -/
def durationOfMinutes (q : ℚ) : Int := Int.floor (q * (minuteNs : ℚ))

/-- Observed results of the external calls made during one
`StartRecording` / `Task.Start` invocation: path-manager lookup result,
path readiness, `os.MkdirAll` outcome, the current clock in nanoseconds,
the `YYYYMMDD` directory for today, and the generated file name and UUID. -/
structure CallEnv where
  pathExists : Bool
  pathReady : Bool
  mkdirOk : Bool
  now : Int
  dateDir : String
  genFileName : String
  genId : String
  deriving DecidableEq

/-- `Task.Start`: records start/end times, resolves the file name (custom
name gets `.mp4`/`.ts` appended when it has no extension, otherwise a
generated `YYYYMMDD-HHMM-<8 hex>` name), computes the full and relative
paths under the `YYYYMMDD` directory, and fails only when the directory
cannot be created. -/
def taskStart (t : Task) (env : CallEnv) : Except String Task :=
  let ext := if t.format = "ts" then "ts" else "mp4"
  let fileName :=
    if t.customFileName ≠ "" then
      if filepathHasExt t.customFileName then t.customFileName
      else t.customFileName ++ "." ++ ext
    else env.genFileName
  let relativePath := "/" ++ env.dateDir ++ "/" ++ fileName
  let fullPath := t.recordPath ++ "/" ++ env.dateDir ++ "/" ++ fileName
  if env.mkdirOk then
    Except.ok { t with
      startTime := env.now
      endTime := env.now + t.timeout
      fileName := fileName
      relativePath := relativePath
      fullPath := fullPath }
  else Except.error "failed to create directory"

/-- `Manager.StartRecording` (manager.go:103-185). Returns the response or
the error, together with the manager state after the call. An existing
task for the name is returned with `existed=true` and the registry is
untouched; otherwise the path is looked up, readiness is checked, a task
is built (API tasks have `IsAutoRecord=false`), the timeout defaults to
30 minutes when the requested minutes are `<= 0`, and the task is
registered only after `Task.Start` succeeds. -/
def StartRecording (m : Manager) (env : CallEnv) (params : StartParams) :
    Except String StartResponse × Manager :=
  match mapLookup m.tasks params.name with
  | some existingTask =>
      (Except.ok
        { existed := true
          success := true
          id := existingTask.id
          name := params.name
          fileName := existingTask.fileName
          filePath := existingTask.relativePath
          fullPath := existingTask.fullPath
          fileURL := existingTask.fileURL
          taskEndTime := existingTask.endTime }, m)
  | none =>
      if ¬env.pathExists then
        (Except.error ("path '" ++ params.name ++ "' not found"), m)
      else if ¬env.pathReady then
        (Except.error ("no one is publishing to path '" ++ params.name ++ "'"), m)
      else
        let minutes := if params.taskOutMinutes ≤ 0 then 30 else params.taskOutMinutes
        let task : Task :=
          { id := env.genId
            pathName := params.name
            format := params.videoFormat
            recordPath := m.recordPath
            timeout := durationOfMinutes minutes
            customFileName := if params.fileName ≠ "" then params.fileName else ""
            isAutoRecord := false
            fileName := ""
            fullPath := ""
            relativePath := ""
            fileURL := ""
            startTime := 0
            endTime := 0 }
        match taskStart task env with
        | Except.error e =>
            (Except.error ("failed to start recording: " ++ e), m)
        | Except.ok started =>
            let fileURL := m.baseURL ++ "/res" ++ started.relativePath
            (Except.ok
              { existed := false
                success := true
                id := started.id
                name := params.name
                fileName := started.fileName
                filePath := started.relativePath
                fullPath := started.fullPath
                fileURL := fileURL
                taskEndTime := started.endTime },
             { m with tasks := mapInsert m.tasks params.name started })

/-- `Manager.StopRecording` (manager.go:187-216): unknown name fails with
`task id that does not exist` and changes nothing; otherwise the task is
stopped, its file locations are returned and the registry entry removed. -/
def StopRecording (m : Manager) (pathName : String) :
    Except String StopResponse × Manager :=
  match mapLookup m.tasks pathName with
  | none => (Except.error "task id that does not exist", m)
  | some task =>
      let fileURL := m.baseURL ++ "/res" ++ task.relativePath
      (Except.ok
        { success := true
          name := pathName
          fileName := task.fileName
          filePath := task.relativePath
          fullPath := task.fullPath
          fileURL := fileURL },
       { m with tasks := mapDelete m.tasks pathName })

/-- `Manager.OnTaskComplete` (manager.go:219-227): drop the registry entry
if present. -/
def OnTaskComplete (m : Manager) (pathName : String) : Manager :=
  match mapLookup m.tasks pathName with
  | none => m
  | some _ => { m with tasks := mapDelete m.tasks pathName }

/-- Reset the capture state registered for `pathName`, if any (the
`OnPathNotReady` cleanup mutates the entry in place, so an absent entry
stays absent). -/
def resetCaptureStateAt (cs : List (String × CaptureState)) (pathName : String) :
    List (String × CaptureState) :=
  match mapLookup cs pathName with
  | none => cs
  | some _ => mapInsert cs pathName CaptureState.reset

/-- `Manager.OnPathNotReady` (manager.go:510-534): no registered task or an
API-initiated task leaves everything unchanged; an auto-record task is
stopped, removed from the registry, and the capture state is reset. -/
def OnPathNotReady (m : Manager) (pathName : String) : Manager :=
  match mapLookup m.tasks pathName with
  | none => m
  | some task =>
      if ¬task.isAutoRecord then m
      else
        { m with
            tasks := mapDelete m.tasks pathName
            captureStates := resetCaptureStateAt m.captureStates pathName }

/-- `Manager.getOrCreateCaptureState` (manager.go:459-470): return the
registered state, creating a zeroed entry when none exists. Yields the
state together with the updated map. -/
def getOrCreateCaptureState (cs : List (String × CaptureState)) (pathName : String) :
    CaptureState × List (String × CaptureState) :=
  match mapLookup cs pathName with
  | some state => (state, cs)
  | none => (⟨0, 0⟩, cs ++ [(pathName, ⟨0, 0⟩)])

deriving instance DecidableEq for Except

/-- Observed results of the external calls made by one smart-recording
gate check: `parseDeviceIP` of the source URL (a gortsplib URL parse),
`deviceutil.GetInputStatusIsAvalible` over HTTP, and
`ColorChecker.IsColorful`. -/
structure GateEnv where
  parseIP : Except String String
  inputAvail : Except String Int
  colorful : Except String Int
  deriving DecidableEq

/-- `Manager.shouldStartNetworkCaptureRecording` (manager.go:387-442).
With no color checker installed the gate fails open. Otherwise the
per-path state is fetched (created at zero when absent); an IP parse
failure denies; a device probe error or zero available inputs resets the
state and denies; a color-check error denies without touching the
counters; a successful observation increments `pingCount` and adds to
`colorfulValue`, and the gate admits (resetting the state) exactly when
`pingCount >= 3` and `colorfulValue` exceeds the effective threshold (the
path's `RecordMinThreshold`, or 1 when that is `<= 0`); without admission
the state is reset once `pingCount` exceeds 12. -/
def shouldStartNetworkCaptureRecording (hasColorChecker : Bool)
    (cs : List (String × CaptureState)) (pathName : String)
    (pathConf : ConfPath) (env : GateEnv) :
    Bool × List (String × CaptureState) :=
  if ¬hasColorChecker then (true, cs)
  else
    let sm := getOrCreateCaptureState cs pathName
    let state := sm.1
    let cs1 := sm.2
    match env.parseIP with
    | Except.error _ => (false, cs1)
    | Except.ok _ =>
        match env.inputAvail with
        | Except.error _ => (false, mapInsert cs1 pathName CaptureState.reset)
        | Except.ok availableCount =>
            if availableCount = 0 then
              (false, mapInsert cs1 pathName CaptureState.reset)
            else
              match env.colorful with
              | Except.error _ => (false, cs1)
              | Except.ok colorfulVal =>
                  let state1 : CaptureState :=
                    ⟨state.pingCount + 1, state.colorfulValue + colorfulVal⟩
                  let threshold :=
                    if pathConf.recordMinThreshold ≤ 0 then 1
                    else pathConf.recordMinThreshold
                  if state1.pingCount ≥ 3 ∧ state1.colorfulValue > threshold then
                    (true, mapInsert cs1 pathName CaptureState.reset)
                  else if state1.pingCount > 12 then
                    (false, mapInsert cs1 pathName CaptureState.reset)
                  else (false, mapInsert cs1 pathName state1)

/-- Go `30 * time.Minute` in nanoseconds. -/
def thirtyMinutesNs : Int := 1800000000000

/-- Observed results of the external calls made during one auto-record
tick, per path name: the path-manager lookup (`none` = error, otherwise
readiness), the smart-gate observations, the `Task.Start` filesystem
outcome, generated names and ids, and the clock. -/
structure TickEnv where
  pathsGet : String → Option Bool
  gate : String → GateEnv
  hasColorChecker : Bool
  mkdirOk : String → Bool
  now : Int
  dateDir : String
  genFileName : String → String
  genId : String → String

/-- Body of the `checkAndStartAutoRecording` loop (manager.go:324-382) for
one `(pathName, pathConf)` entry: skip paths without `Record`, paths with
a registered task, unknown or not-ready paths, and `network_capture`
paths rejected by the smart gate; otherwise build an auto-record MP4 task
whose timeout defaults to 30 minutes, and register it only when
`Task.Start` succeeds. -/
def tickStep (env : TickEnv) (m : Manager) (entry : String × ConfPath) : Manager :=
  let pathName := entry.1
  let pathConf := entry.2
  if ¬pathConf.record then m
  else if (mapLookup m.tasks pathName).isSome then m
  else
    match env.pathsGet pathName with
    | none => m
    | some ready =>
        if ¬ready then m
        else
          let gateResult :=
            if pathConf.deviceType = "network_capture" then
              shouldStartNetworkCaptureRecording env.hasColorChecker
                m.captureStates pathName pathConf (env.gate pathName)
            else (true, m.captureStates)
          let m1 := { m with captureStates := gateResult.2 }
          if ¬gateResult.1 then m1
          else
            let timeout :=
              if pathConf.autoRecordTaskOutDuration ≤ 0 then thirtyMinutesNs
              else pathConf.autoRecordTaskOutDuration
            let task : Task :=
              { id := env.genId pathName
                pathName := pathName
                format := "mp4"
                recordPath := m1.recordPath
                timeout := timeout
                customFileName := ""
                isAutoRecord := true
                fileName := ""
                fullPath := ""
                relativePath := ""
                fileURL := ""
                startTime := 0
                endTime := 0 }
            let callEnv : CallEnv :=
              { pathExists := true
                pathReady := true
                mkdirOk := env.mkdirOk pathName
                now := env.now
                dateDir := env.dateDir
                genFileName := env.genFileName pathName
                genId := env.genId pathName }
            match taskStart task callEnv with
            | Except.error _ => m1
            | Except.ok started =>
                { m1 with tasks := mapInsert m1.tasks pathName started }

/-- `Manager.checkAndStartAutoRecording` (manager.go:319-383): run the
tick body over every configured path, threading the manager state. -/
def checkAndStartAutoRecording (env : TickEnv) (m : Manager) : Manager :=
  m.pathConfs.foldl (tickStep env) m

end Recorder

namespace ApiV2

open Recorder

/-- Outcome of a record endpoint as observed by the HTTP client: the
status code, the error message when `writeError` was used, and the
manager state after the handler ran. -/
structure HandlerResult where
  status : Nat
  errorMessage : Option String
  manager : Manager
  deriving DecidableEq

/-- `APIV2.onRecordStart` (api_v2.go:406-428): a JSON binding failure
(modelled as `none`) or a `videoFormat` other than `mp4`/`ts` is a 400;
any error from `Manager.StartRecording` is written with status 500;
success is a 200. -/
def onRecordStart (bound : Option StartParams) (env : CallEnv) (m : Manager) :
    HandlerResult :=
  match bound with
  | none => ⟨400, some "invalid request", m⟩
  | some params =>
      if params.videoFormat ≠ "mp4" ∧ params.videoFormat ≠ "ts" then
        ⟨400, some "videoFormat must be mp4 or ts", m⟩
      else
        match StartRecording m env params with
        | (Except.error e, m1) => ⟨500, some e, m1⟩
        | (Except.ok _, m1) => ⟨200, none, m1⟩

/-- `APIV2.onRecordStop` (api_v2.go:430-446): a binding failure is a 400;
any error from `Manager.StopRecording` is written with status 500;
success is a 200. -/
def onRecordStop (bound : Option String) (m : Manager) : HandlerResult :=
  match bound with
  | none => ⟨400, some "invalid request", m⟩
  | some name =>
      match StopRecording m name with
      | (Except.error e, m1) => ⟨500, some e, m1⟩
      | (Except.ok _, m1) => ⟨200, none, m1⟩

end ApiV2

namespace Healthcheck

/-- `pathMonitor.performCheck` (checker.go:199-234), acting on the
monitor's `failureCount`. Inputs are the observed results of the device
probe (`GetInputStatusIsAvalible`), the snapshot probe, and whether the
reboot HTTP sequence would succeed. Returns the new `failureCount` and
whether a reboot was issued. A probe error or zero available inputs skips
the tick; a snapshot failure increments the counter and, at the fixed
threshold 6, resets it and issues the reboot (the reset happens before
and regardless of the reboot outcome); a snapshot success resets a
positive counter. -/
def performCheck (inputAvail : Except String Int) (snapshot : Except String Unit)
    (rebootOk : Bool) (failureCount : Int) : Int × Bool :=
  match inputAvail with
  | Except.error _ => (failureCount, false)
  | Except.ok availableCount =>
      if availableCount = 0 then (failureCount, false)
      else
        match snapshot with
        | Except.error _ =>
            let fc := failureCount + 1
            if fc ≥ 6 then
              let _ := rebootOk
              (0, true)
            else (fc, false)
        | Except.ok _ =>
            if failureCount > 0 then (0, false) else (failureCount, false)

end Healthcheck

namespace RecordCleaner

/-- A proleptic Gregorian calendar date, as held by Go's `time.Time` wall
clock. -/
structure Date where
  year : Int
  month : Int
  day : Int
  deriving DecidableEq

/-- Day count since 1970-01-01 of a civil date (the standard
days-from-civil computation, which is what Go's calendar arithmetic
realizes). -/
def dateToDays (dt : Date) : Int :=
  let y := if dt.month ≤ 2 then dt.year - 1 else dt.year
  let era := Int.fdiv y 400
  let yoe := y - era * 400
  let mp := if dt.month > 2 then dt.month - 3 else dt.month + 9
  let doy := Int.fdiv (153 * mp + 2) 5 + dt.day - 1
  let doe := yoe * 365 + Int.fdiv yoe 4 - Int.fdiv yoe 100 + doy
  era * 146097 + doe - 719468

/-- Civil date of a day count since 1970-01-01 (the standard
civil-from-days computation). -/
def daysToDate (z0 : Int) : Date :=
  let z := z0 + 719468
  let era := Int.fdiv z 146097
  let doe := z - era * 146097
  let yoe := Int.fdiv (doe - Int.fdiv doe 1460 + Int.fdiv doe 36524 - Int.fdiv doe 146096) 365
  let y := yoe + era * 400
  let doy := doe - (365 * yoe + Int.fdiv yoe 4 - Int.fdiv yoe 100)
  let mp := Int.fdiv (5 * doy + 2) 153
  let d := doy - Int.fdiv (153 * mp + 2) 5 + 1
  let mo := if mp < 10 then mp + 3 else mp - 9
  ⟨if mo ≤ 2 then y + 1 else y, mo, d⟩

/-- Go `t.AddDate(0, 0, n)`: shift a date by `n` days. -/
def addDays (dt : Date) (n : Int) : Date := daysToDate (dateToDays dt + n)

/-- Zero-padded decimal rendering of a nonnegative integer to width `w`,
as produced by Go's `Format` verbs. -/
def padNum (n : Int) (w : Nat) : String :=
  let s := toString n.toNat
  let pad := w - s.length
  String.mk (List.replicate pad '0') ++ s

/-- Go `t.Format("20060102")`: `YYYYMMDD` with a four-digit year and
two-digit month and day. -/
def formatYYYYMMDD (dt : Date) : String :=
  padNum dt.year 4 ++ padNum dt.month 2 ++ padNum dt.day 2

/-- One `os.ReadDir` entry of the record root: its name and whether it is
a directory. -/
structure DirEntry where
  name : String
  isDir : Bool
  deriving DecidableEq

/-- Observed filesystem and clock state for one cleaner run: whether
`os.Stat(RecordPath)` succeeds and reports a directory, the directory
listing, and today's date. -/
structure CleanerEnv where
  rootOk : Bool
  entries : List DirEntry
  today : Date
  deriving DecidableEq

/-- One iteration of the `minDaysAgo` loop of `Cleaner.doRun`: adopt a
positive retention that is the first seen or smaller than the current
minimum. -/
def minDaysStep (acc : Int) (c : ConfPath) : Int :=
  if c.recordClearDaysAgo > 0 ∧ (acc = 0 ∨ c.recordClearDaysAgo < acc) then
    c.recordClearDaysAgo
  else acc

/-- The `minDaysAgo` loop of `Cleaner.doRun`: the smallest positive
`RecordClearDaysAgo` over the path configurations, or 0 when none is
positive. -/
def minDaysAgo (confs : List ConfPath) : Int :=
  confs.foldl minDaysStep 0

/-- `Cleaner.doRun` (recordcleaner), returning the names of the record-root
children the run removes with `os.RemoveAll`: nothing when the root path
is empty or missing or no retention is configured; otherwise every
directory entry named like `YYYYMMDD` that is lexicographically below the
cutoff `today - minDaysAgo`. -/
def doRun (recordPath : String) (confs : List ConfPath) (env : CleanerEnv) :
    List String :=
  if recordPath = "" then []
  else if ¬env.rootOk then []
  else
    let minDays := minDaysAgo confs
    if minDays = 0 then []
    else
      let cutoffDateStr := formatYYYYMMDD (addDays env.today (-minDays))
      env.entries.filterMap fun e =>
        if e.isDir ∧ datePatternMatch e.name ∧ strLt e.name cutoffDateStr then
          some e.name
        else none

end RecordCleaner

namespace Recorder

/-- The smart-recording counters currently associated with a path:
the registered entry, or zeroes when none is registered yet (which is
exactly what `getOrCreateCaptureState` would hand out). -/
def stateOf (cs : List (String × CaptureState)) (pathName : String) : CaptureState :=
  (mapLookup cs pathName).getD ⟨0, 0⟩

/-- Replay of successive smart-gate checks in which the device stays
available (IP parses, one input available) and every color check succeeds
with the given value; collects the admission decision of each tick. -/
def gateDecisionsAux (pathConf : ConfPath) (pathName : String) :
    List Int → List (String × CaptureState) → List Bool
  | [], _ => []
  | v :: vs, cs =>
      let r := shouldStartNetworkCaptureRecording true cs pathName pathConf
        ⟨Except.ok "192.168.1.50", Except.ok 1, Except.ok v⟩
      r.1 :: gateDecisionsAux pathConf pathName vs r.2

/-- Replay of the smart gate from a fresh (absent) capture state. -/
def gateDecisions (pathConf : ConfPath) (pathName : String) (obs : List Int) :
    List Bool :=
  gateDecisionsAux pathConf pathName obs []

end Recorder

/-- Fixture: a `network_capture` path configuration with
`recordMinThreshold = 10` (the spec's smart-record scenario). -/
def confCapture10 : ConfPath :=
  { record := true
    deviceType := "network_capture"
    recordMinThreshold := 10
    autoRecordTaskOutDuration := 0
    recordClearDaysAgo := 0
    source := "rtsp://192.168.1.50/stream0" }

/-- Fixture: a manager with an empty task registry and no capture state. -/
def mgrEmpty : Recorder.Manager :=
  { recordPath := "/recordings"
    baseURL := "http://127.0.0.1:9997"
    pathConfs := [("cam1", confCapture10)]
    tasks := []
    captureStates := [] }

/-- Fixture: a call environment in which the path-manager lookup fails. -/
def envPathMissing : Recorder.CallEnv :=
  { pathExists := false
    pathReady := false
    mkdirOk := true
    now := 1000
    dateDir := "20251011"
    genFileName := "20251011-0930-0a1b2c3d.mp4"
    genId := "7b9d" }

/-- Fixture: a call environment in which everything succeeds. -/
def envAllOk : Recorder.CallEnv :=
  { pathExists := true
    pathReady := true
    mkdirOk := true
    now := 1000
    dateDir := "20251011"
    genFileName := "20251011-0930-0a1b2c3d.mp4"
    genId := "7b9d" }

/-- Fixture: a call environment in which the path exists but nobody is
publishing to it. -/
def envNotReady : Recorder.CallEnv :=
  { pathExists := true
    pathReady := false
    mkdirOk := true
    now := 1000
    dateDir := "20251011"
    genFileName := "20251011-0930-0a1b2c3d.mp4"
    genId := "7b9d" }

/-- Fixture: an MP4 start request with no explicit timeout. -/
def paramsDefaultTimeout : Recorder.StartParams :=
  { name := "cam1", videoFormat := "mp4", taskOutMinutes := 0, fileName := "" }

/-- Fixture: a registered task, as `Task.Start` would leave it. -/
def taskFixture : Recorder.Task :=
  { id := "7b9d"
    pathName := "cam1"
    format := "mp4"
    recordPath := "/recordings"
    timeout := 1800000000000
    customFileName := ""
    isAutoRecord := true
    fileName := "20251011-0930-0a1b2c3d.mp4"
    fullPath := "/recordings/20251011/20251011-0930-0a1b2c3d.mp4"
    relativePath := "/20251011/20251011-0930-0a1b2c3d.mp4"
    fileURL := ""
    startTime := 1000
    endTime := 1800000001000 }

/-- Fixture: a manager whose registry holds `taskFixture` for `cam1`. -/
def mgrWithTask : Recorder.Manager :=
  { mgrEmpty with
      tasks := [("cam1", taskFixture)]
      captureStates := [("cam1", ⟨2, 7⟩)] }

/-- Fixture: a tick environment in which every path is ready, the device
is up and each color check reports 50. -/
def tickEnvFixture : Recorder.TickEnv :=
  { pathsGet := fun _ => some true
    gate := fun _ => ⟨Except.ok "192.168.1.50", Except.ok 1, Except.ok 50⟩
    hasColorChecker := true
    mkdirOk := fun _ => true
    now := 1000
    dateDir := "20251011"
    genFileName := fun _ => "20251011-0930-0a1b2c3d.mp4"
    genId := fun _ => "7b9d" }

/-- Fixture: path configurations for the cleaner scenario
(retentions 30 and 60 days, one path without cleanup). -/
def cleanerConfs : List ConfPath :=
  [{ confCapture10 with recordClearDaysAgo := 60 },
   { confCapture10 with recordClearDaysAgo := 30 },
   { confCapture10 with recordClearDaysAgo := 0 }]

/-- Fixture: the cleaner's view of the record root on 2024-07-20. -/
def cleanerEnvFixture : RecordCleaner.CleanerEnv :=
  { rootOk := true
    entries :=
      [⟨"20240101", true⟩, ⟨"20240601", true⟩, ⟨"20240715", true⟩,
       ⟨"favorite", true⟩, ⟨"20240102", false⟩]
    today := ⟨2024, 7, 20⟩ }

/-! Association-list lemmas for the Go-map model. -/

theorem mapLookup_cons {α : Type} (p : String × α) (l : List (String × α)) (k : String) :
    mapLookup (p :: l) k = if k = p.1 then some p.2 else mapLookup l k := by
  cases p with
  | mk a b =>
      by_cases h : k = a
      · simp [mapLookup, List.lookup, h]
      · have hb : (k == a) = false := beq_eq_false_iff_ne.mpr h
        simp [mapLookup, List.lookup, h, hb]

theorem mapLookup_append_of_none {α : Type} {l1 : List (String × α)} {k : String}
    (l2 : List (String × α)) (h : mapLookup l1 k = none) :
    mapLookup (l1 ++ l2) k = mapLookup l2 k := by
  induction l1 with
  | nil => rfl
  | cons p rest ih =>
      rw [mapLookup_cons] at h
      by_cases hk : k = p.1
      · simp [hk] at h
      · rw [if_neg hk] at h
        rw [List.cons_append, mapLookup_cons, if_neg hk]
        exact ih h

theorem mapLookup_append_of_some {α : Type} {l1 : List (String × α)} {k : String} {v : α}
    (l2 : List (String × α)) (h : mapLookup l1 k = some v) :
    mapLookup (l1 ++ l2) k = some v := by
  induction l1 with
  | nil => simp [mapLookup, List.lookup] at h
  | cons p rest ih =>
      rw [mapLookup_cons] at h
      by_cases hk : k = p.1
      · rw [if_pos hk] at h
        rw [List.cons_append, mapLookup_cons, if_pos hk]
        exact h
      · rw [if_neg hk] at h
        rw [List.cons_append, mapLookup_cons, if_neg hk]
        exact ih h

theorem mapLookup_mapDelete_self {α : Type} (l : List (String × α)) (k : String) :
    mapLookup (mapDelete l k) k = none := by
  induction l with
  | nil => rfl
  | cons p rest ih =>
      by_cases hp : p.1 = k
      · simpa [mapDelete, List.filter_cons, hp] using ih
      · have : mapDelete (p :: rest) k = p :: mapDelete rest k := by
          simp [mapDelete, List.filter_cons, hp]
        rw [this, mapLookup_cons, if_neg (fun hk => hp hk.symm)]
        exact ih

theorem mapLookup_mapDelete_ne {α : Type} (l : List (String × α)) {k k' : String}
    (h : k' ≠ k) : mapLookup (mapDelete l k) k' = mapLookup l k' := by
  induction l with
  | nil => rfl
  | cons p rest ih =>
      by_cases hp : p.1 = k
      · have hne : k' ≠ p.1 := fun hk => h (hk.trans hp)
        have : mapDelete (p :: rest) k = mapDelete rest k := by
          simp [mapDelete, List.filter_cons, hp]
        rw [this, mapLookup_cons, if_neg hne]
        exact ih
      · have : mapDelete (p :: rest) k = p :: mapDelete rest k := by
          simp [mapDelete, List.filter_cons, hp]
        rw [this, mapLookup_cons, mapLookup_cons]
        by_cases hk : k' = p.1
        · rw [if_pos hk, if_pos hk]
        · rw [if_neg hk, if_neg hk]
          exact ih

theorem mapLookup_mapInsert_self {α : Type} (l : List (String × α)) (k : String) (v : α) :
    mapLookup (mapInsert l k v) k = some v := by
  unfold mapInsert
  rw [mapLookup_append_of_none _ (mapLookup_mapDelete_self l k)]
  simp [mapLookup_cons]

theorem mapLookup_mapInsert_ne {α : Type} (l : List (String × α)) (k : String) (v : α)
    {k' : String} (h : k' ≠ k) :
    mapLookup (mapInsert l k v) k' = mapLookup l k' := by
  unfold mapInsert
  cases hc : mapLookup (mapDelete l k) k' with
  | some w =>
      rw [mapLookup_append_of_some _ hc]
      rw [mapLookup_mapDelete_ne l h] at hc
      exact hc.symm
  | none =>
      rw [mapLookup_append_of_none _ hc, mapLookup_cons, if_neg h]
      rw [mapLookup_mapDelete_ne l h] at hc
      simpa [mapLookup, List.lookup] using hc.symm

theorem keys_mapDelete_nodup {α : Type} {l : List (String × α)} (k : String)
    (h : (l.map Prod.fst).Nodup) : ((mapDelete l k).map Prod.fst).Nodup :=
  (((List.filter_sublist l).map Prod.fst).nodup h)

theorem not_mem_keys_mapDelete {α : Type} (l : List (String × α)) (k : String) :
    k ∉ (mapDelete l k).map Prod.fst := by
  intro hmem
  rcases List.mem_map.mp hmem with ⟨p, hp, hfst⟩
  rcases List.mem_filter.mp hp with ⟨_, hcond⟩
  exact (of_decide_eq_true hcond) hfst

theorem keys_mapInsert_nodup {α : Type} {l : List (String × α)} (k : String) (v : α)
    (h : (l.map Prod.fst).Nodup) : ((mapInsert l k v).map Prod.fst).Nodup := by
  unfold mapInsert
  rw [List.map_append]
  refine List.Nodup.append (keys_mapDelete_nodup k h) (List.nodup_singleton k) ?_
  intro a ha hb
  have hak : a = k := List.mem_singleton.mp hb
  rw [hak] at ha
  exact not_mem_keys_mapDelete l k ha

/-- C7: `StopRecording` on a name with no registered task returns the error
`task id that does not exist` and leaves the registry unchanged;
`StopRecording` on a name with a registered task returns its file name and
paths and removes it from the registry, so a second call for the same name
returns the not-exist error. -/
theorem C7_stop_recording (m : Recorder.Manager) (pathName : String) :
    (mapLookup m.tasks pathName = none →
      Recorder.StopRecording m pathName =
        (Except.error "task id that does not exist", m)) ∧
    (∀ t, mapLookup m.tasks pathName = some t →
      ∃ resp,
        Recorder.StopRecording m pathName =
          (Except.ok resp, { m with tasks := mapDelete m.tasks pathName }) ∧
        resp.fileName = t.fileName ∧ resp.filePath = t.relativePath ∧
        resp.fullPath = t.fullPath ∧
        Recorder.StopRecording { m with tasks := mapDelete m.tasks pathName } pathName =
          (Except.error "task id that does not exist",
           { m with tasks := mapDelete m.tasks pathName })) := by
  constructor
  · intro h
    unfold Recorder.StopRecording
    rw [h]
  · intro t h
    have h2 : mapLookup (mapDelete m.tasks pathName) pathName = none :=
      mapLookup_mapDelete_self _ _
    refine ⟨{ success := true, name := pathName, fileName := t.fileName,
              filePath := t.relativePath, fullPath := t.fullPath,
              fileURL := m.baseURL ++ "/res" ++ t.relativePath }, ?_, rfl, rfl, rfl, ?_⟩
    · unfold Recorder.StopRecording
      rw [h]
    · unfold Recorder.StopRecording
      rw [h2]

/-- Witness for C7 at a concrete registry: a stop on an empty registry
fails with the not-exist error, a stop on a registered task succeeds and
removes the entry. -/
theorem C7_stop_recording_witness :
    Recorder.StopRecording mgrEmpty "cam1" =
      (Except.error "task id that does not exist", mgrEmpty) ∧
    ∃ resp,
      Recorder.StopRecording mgrWithTask "cam1" =
        (Except.ok resp, { mgrWithTask with tasks := mapDelete mgrWithTask.tasks "cam1" }) ∧
      resp.fileName = taskFixture.fileName ∧ resp.filePath = taskFixture.relativePath ∧
      resp.fullPath = taskFixture.fullPath ∧
      Recorder.StopRecording { mgrWithTask with tasks := mapDelete mgrWithTask.tasks "cam1" } "cam1" =
        (Except.error "task id that does not exist",
         { mgrWithTask with tasks := mapDelete mgrWithTask.tasks "cam1" }) :=
  ⟨(C7_stop_recording mgrEmpty "cam1").1 rfl,
   (C7_stop_recording mgrWithTask "cam1").2 taskFixture rfl⟩

/-- C9: `StartRecording` is atomic on failure — every call that returns an
error leaves the manager (in particular the tasks registry) unchanged. -/
theorem C9_start_atomic_failure (m : Recorder.Manager) (env : Recorder.CallEnv)
    (params : Recorder.StartParams) (e : String) (m' : Recorder.Manager)
    (h : Recorder.StartRecording m env params = (Except.error e, m')) : m' = m := by
  unfold Recorder.StartRecording at h
  split at h
  · simp at h
  · split at h
    · simp at h
      exact h.2.symm
    · split at h
      · simp at h
        exact h.2.symm
      · split at h <;> split at h <;> simp only [] at h <;> split at h <;> simp at h
        all_goals exact h.2.symm

/-- Witness for C9: a start call against an unknown path fails and leaves
the concrete empty manager untouched. -/
theorem C9_start_atomic_failure_witness :
    (Recorder.StartRecording mgrEmpty envPathMissing paramsDefaultTimeout).2 = mgrEmpty :=
  C9_start_atomic_failure mgrEmpty envPathMissing paramsDefaultTimeout
    "path 'cam1' not found" _ (by decide)

/-- C6: `OnPathNotReady` stops and removes the registered task and resets
the path's capture state exactly when that task is auto-record; an
API-initiated task, or an absent task, leaves the manager unchanged. -/
theorem C6_on_path_not_ready (m : Recorder.Manager) (pathName : String) :
    (mapLookup m.tasks pathName = none → Recorder.OnPathNotReady m pathName = m) ∧
    (∀ t, mapLookup m.tasks pathName = some t → t.isAutoRecord = false →
       Recorder.OnPathNotReady m pathName = m) ∧
    (∀ t, mapLookup m.tasks pathName = some t → t.isAutoRecord = true →
       Recorder.OnPathNotReady m pathName =
         { m with
             tasks := mapDelete m.tasks pathName
             captureStates := Recorder.resetCaptureStateAt m.captureStates pathName } ∧
       mapLookup (Recorder.OnPathNotReady m pathName).tasks pathName = none ∧
       (∀ s, mapLookup m.captureStates pathName = some s →
          mapLookup (Recorder.OnPathNotReady m pathName).captureStates pathName =
            some Recorder.CaptureState.reset)) := by
  refine ⟨?_, ?_, ?_⟩
  · intro h
    unfold Recorder.OnPathNotReady
    rw [h]
  · intro t h hauto
    unfold Recorder.OnPathNotReady
    rw [h]
    simp [hauto]
  · intro t h hauto
    have heq : Recorder.OnPathNotReady m pathName =
        { m with
            tasks := mapDelete m.tasks pathName
            captureStates := Recorder.resetCaptureStateAt m.captureStates pathName } := by
      unfold Recorder.OnPathNotReady
      rw [h]
      simp [hauto]
    refine ⟨heq, ?_, ?_⟩
    · rw [heq]
      exact mapLookup_mapDelete_self _ _
    · intro s hs
      rw [heq]
      show mapLookup (Recorder.resetCaptureStateAt m.captureStates pathName) pathName =
        some Recorder.CaptureState.reset
      unfold Recorder.resetCaptureStateAt
      rw [hs]
      exact mapLookup_mapInsert_self _ _ _

/-- Witness for C6: on a concrete manager holding an auto-record task for
`cam1` with capture counters `(2, 7)`, the not-ready event removes the
task and zeroes the counters; on the empty manager it is a no-op. -/
theorem C6_on_path_not_ready_witness :
    Recorder.OnPathNotReady mgrEmpty "cam1" = mgrEmpty ∧
    Recorder.OnPathNotReady mgrWithTask "cam1" =
      { mgrWithTask with
          tasks := mapDelete mgrWithTask.tasks "cam1"
          captureStates := Recorder.resetCaptureStateAt mgrWithTask.captureStates "cam1" } ∧
    mapLookup (Recorder.OnPathNotReady mgrWithTask "cam1").tasks "cam1" = none ∧
    mapLookup (Recorder.OnPathNotReady mgrWithTask "cam1").captureStates "cam1" =
      some Recorder.CaptureState.reset := by
  have h1 := (C6_on_path_not_ready mgrEmpty "cam1").1 rfl
  have h3 := (C6_on_path_not_ready mgrWithTask "cam1").2.2 taskFixture rfl rfl
  exact ⟨h1, h3.1, h3.2.1, h3.2.2 ⟨2, 7⟩ rfl⟩

/-- C10: a `ColorChecker.IsColorful` error makes the smart gate deny
admission and leaves the path's counters unchanged. -/
theorem C10_colorful_error (cs : List (String × Recorder.CaptureState))
    (pathName : String) (pathConf : ConfPath) (ip : String) (n : Int) (e : String)
    (hn : n ≠ 0) :
    Recorder.shouldStartNetworkCaptureRecording true cs pathName pathConf
        ⟨Except.ok ip, Except.ok n, Except.error e⟩ =
      (false, (Recorder.getOrCreateCaptureState cs pathName).2) ∧
    Recorder.stateOf (Recorder.getOrCreateCaptureState cs pathName).2 pathName =
      Recorder.stateOf cs pathName := by
  constructor
  · unfold Recorder.shouldStartNetworkCaptureRecording
    simp [hn]
  · unfold Recorder.getOrCreateCaptureState Recorder.stateOf
    cases hc : mapLookup cs pathName with
    | some s => simp [hc]
    | none =>
        simp only [hc]
        rw [mapLookup_append_of_none _ hc]
        simp [mapLookup_cons]

/-- Witness for C10: a color-check error on a fresh path denies and keeps
the (zero) counters. -/
theorem C10_colorful_error_witness :
    Recorder.shouldStartNetworkCaptureRecording true [] "cam1" confCapture10
        ⟨Except.ok "192.168.1.50", Except.ok 2, Except.error "timeout"⟩ =
      (false, (Recorder.getOrCreateCaptureState [] "cam1").2) ∧
    Recorder.stateOf (Recorder.getOrCreateCaptureState [] "cam1").2 "cam1" =
      Recorder.stateOf [] "cam1" :=
  C10_colorful_error [] "cam1" confCapture10 "192.168.1.50" 2 "timeout" (by decide)

/-- C4: one health-check tick. A device-probe error or zero available
inputs changes nothing; a snapshot failure increments the counter, and at
the threshold of 6 the counter is reset and a reboot issued, the new count
being independent of the reboot outcome; a snapshot success resets a
positive counter. -/
theorem C4_health_tick (inputAvail : Except String Int) (snapshot : Except String Unit)
    (rebootOk : Bool) (failureCount : Int) :
    (((∃ err, inputAvail = Except.error err) ∨ inputAvail = Except.ok 0) →
       Healthcheck.performCheck inputAvail snapshot rebootOk failureCount =
         (failureCount, false)) ∧
    (∀ n, inputAvail = Except.ok n → n ≠ 0 →
       ((∃ err, snapshot = Except.error err) →
          (failureCount + 1 ≥ 6 →
             Healthcheck.performCheck inputAvail snapshot rebootOk failureCount = (0, true)) ∧
          (failureCount + 1 < 6 →
             Healthcheck.performCheck inputAvail snapshot rebootOk failureCount =
               (failureCount + 1, false))) ∧
       (snapshot = Except.ok () →
          (failureCount > 0 →
             Healthcheck.performCheck inputAvail snapshot rebootOk failureCount = (0, false)) ∧
          (¬failureCount > 0 →
             Healthcheck.performCheck inputAvail snapshot rebootOk failureCount =
               (failureCount, false)))) ∧
    Healthcheck.performCheck inputAvail snapshot true failureCount =
      Healthcheck.performCheck inputAvail snapshot false failureCount := by
  refine ⟨?_, ?_, ?_⟩
  · rintro (⟨err, he⟩ | hz)
    · rw [he]
      rfl
    · rw [hz]
      unfold Healthcheck.performCheck
      simp
  · rintro n hn hnz
    constructor
    · rintro ⟨err, hs⟩
      rw [hn, hs]
      unfold Healthcheck.performCheck
      constructor
      · intro hge
        simp [hnz, hge]
      · intro hlt
        simp [hnz, not_le.mpr hlt]
    · intro hs
      rw [hn, hs]
      unfold Healthcheck.performCheck
      constructor
      · intro hpos
        simp [hnz, hpos]
      · intro hnp
        simp [hnz, hnp]
  · unfold Healthcheck.performCheck
    rfl

/-- Witness for C4: counter at 5, device with 2 inputs, snapshot failing:
the tick resets the counter to 0 and issues the reboot, for either reboot
outcome; at counter 2 a success resets to 0. -/
theorem C4_health_tick_witness :
    Healthcheck.performCheck (Except.ok 2) (Except.error "snapshot failed") true 5 =
      (0, true) ∧
    Healthcheck.performCheck (Except.ok 2) (Except.error "snapshot failed") false 5 =
      (0, true) ∧
    Healthcheck.performCheck (Except.ok 2) (Except.ok ()) true 2 = (0, false) ∧
    Healthcheck.performCheck (Except.error "probe down") (Except.ok ()) true 3 =
      (3, false) := by
  refine ⟨?_, ?_, ?_, ?_⟩
  · exact (((C4_health_tick (Except.ok 2) (Except.error "snapshot failed") true 5).2.1
      2 rfl (by decide)).1 ⟨"snapshot failed", rfl⟩).1 (by decide)
  · exact (((C4_health_tick (Except.ok 2) (Except.error "snapshot failed") false 5).2.1
      2 rfl (by decide)).1 ⟨"snapshot failed", rfl⟩).1 (by decide)
  · exact (((C4_health_tick (Except.ok 2) (Except.ok ()) true 2).2.1
      2 rfl (by decide)).2 rfl).1 (by decide)
  · exact (C4_health_tick (Except.error "probe down") (Except.ok ()) true 3).1
      (Or.inl ⟨"probe down", rfl⟩)

/-- C8: a successful `StartRecording` whose requested minutes are zero or
negative (the unset JSON value is zero) creates a task with a 30-minute
timeout, so the returned end time is the start time plus 30 minutes. -/
theorem C8_default_timeout (m : Recorder.Manager) (env : Recorder.CallEnv)
    (params : Recorder.StartParams)
    (hnone : mapLookup m.tasks params.name = none)
    (hex : env.pathExists = true) (hrd : env.pathReady = true)
    (hmk : env.mkdirOk = true) (hq : params.taskOutMinutes ≤ 0) :
    ∃ resp m1, Recorder.StartRecording m env params = (Except.ok resp, m1) ∧
      resp.existed = false ∧
      resp.taskEndTime = env.now + 30 * Recorder.minuteNs := by
  have hdur : Recorder.durationOfMinutes 30 = 30 * Recorder.minuteNs := by
    unfold Recorder.durationOfMinutes Recorder.minuteNs
    rw [show ((30 : ℚ) * ((60000000000 : Int) : ℚ)) = (((1800000000000 : Int) : ℚ)) by
      norm_num]
    rw [Int.floor_intCast]
    norm_num
  unfold Recorder.StartRecording
  rw [hnone]
  simp only [hex, hrd, not_true, if_neg, if_pos, hq, if_true]
  unfold Recorder.taskStart
  simp only [hmk, if_true, hq, if_pos]
  refine ⟨_, _, rfl, rfl, ?_⟩
  simp [hdur]

/-- Witness for C8: the concrete all-OK start with `taskOutMinutes = 0`
returns an end time 30 minutes past the clock value 1000. -/
theorem C8_default_timeout_witness :
    ∃ resp m1, Recorder.StartRecording mgrEmpty envAllOk paramsDefaultTimeout =
        (Except.ok resp, m1) ∧
      resp.existed = false ∧
      resp.taskEndTime = envAllOk.now + 30 * Recorder.minuteNs :=
  C8_default_timeout mgrEmpty envAllOk paramsDefaultTimeout rfl rfl rfl rfl (by decide)

/-- One auto-record tick step never disturbs a registered task: a path with
a task is skipped outright, and a task started for a different path is
inserted under its own key. -/
theorem tickStep_lookup_preserved (env : Recorder.TickEnv) (m : Recorder.Manager)
    (entry : String × ConfPath) (name : String) (t : Recorder.Task)
    (h : mapLookup m.tasks name = some t) :
    mapLookup (Recorder.tickStep env m entry).tasks name = some t := by
  by_cases hn : entry.1 = name
  · simp only [Recorder.tickStep]
    split
    · exact h
    · split
      · exact h
      · rename_i hsome
        rw [hn, h] at hsome
        simp at hsome
  · have hne : name ≠ entry.1 := fun hh => hn hh.symm
    simp only [Recorder.tickStep]
    repeat' split
    all_goals first
      | exact h
      | (show mapLookup (mapInsert m.tasks entry.1 _) name = some t
         rw [mapLookup_mapInsert_ne _ _ _ hne]
         exact h)

/-- The whole auto-record tick never disturbs a registered task. -/
theorem tick_fold_lookup_preserved (env : Recorder.TickEnv)
    (l : List (String × ConfPath)) (m : Recorder.Manager) (name : String)
    (t : Recorder.Task) (h : mapLookup m.tasks name = some t) :
    mapLookup (l.foldl (Recorder.tickStep env) m).tasks name = some t := by
  induction l generalizing m with
  | nil => exact h
  | cons e rest ih => exact ih _ (tickStep_lookup_preserved env m e name t h)

/-- One tick step keeps the registry keys duplicate-free. -/
theorem tickStep_keys_nodup (env : Recorder.TickEnv) (m : Recorder.Manager)
    (entry : String × ConfPath) (h : (m.tasks.map Prod.fst).Nodup) :
    (((Recorder.tickStep env m entry).tasks).map Prod.fst).Nodup := by
  simp only [Recorder.tickStep]
  repeat' split
  all_goals first
    | exact h
    | exact keys_mapInsert_nodup _ _ h

/-- The whole auto-record tick keeps the registry keys duplicate-free. -/
theorem tick_fold_keys_nodup (env : Recorder.TickEnv)
    (l : List (String × ConfPath)) (m : Recorder.Manager)
    (h : (m.tasks.map Prod.fst).Nodup) :
    ((l.foldl (Recorder.tickStep env) m).tasks.map Prod.fst).Nodup := by
  induction l generalizing m with
  | nil => exact h
  | cons e rest ih => exact ih _ (tickStep_keys_nodup env m e h)

/-- `StartRecording` keeps the registry keys duplicate-free. -/
theorem startRecording_keys_nodup (m : Recorder.Manager) (env : Recorder.CallEnv)
    (params : Recorder.StartParams) (h : (m.tasks.map Prod.fst).Nodup) :
    (((Recorder.StartRecording m env params).2.tasks).map Prod.fst).Nodup := by
  unfold Recorder.StartRecording
  split
  · exact h
  · split
    · exact h
    · split
      · exact h
      · split <;> split <;> simp only [] <;> split
        all_goals first
          | exact h
          | exact keys_mapInsert_nodup _ _ h

/-- C2: the registry holds at most one task per path name. `StartRecording`
on a registered name answers with `existed=true` and does not touch the
registry; the auto-record tick skips every path that already has a task
(the registered task survives the tick verbatim); and both operations
preserve uniqueness of the registry keys. -/
theorem C2_at_most_one_task (m : Recorder.Manager) (env : Recorder.CallEnv)
    (tenv : Recorder.TickEnv) (params : Recorder.StartParams) (name : String)
    (t t' : Recorder.Task) :
    (mapLookup m.tasks params.name = some t' →
       ∃ resp, Recorder.StartRecording m env params = (Except.ok resp, m) ∧
         resp.existed = true ∧ resp.id = t'.id) ∧
    (mapLookup m.tasks name = some t →
       mapLookup (Recorder.checkAndStartAutoRecording tenv m).tasks name = some t) ∧
    ((m.tasks.map Prod.fst).Nodup →
       (((Recorder.StartRecording m env params).2.tasks).map Prod.fst).Nodup ∧
       (((Recorder.checkAndStartAutoRecording tenv m).tasks).map Prod.fst).Nodup) := by
  refine ⟨?_, ?_, ?_⟩
  · intro h
    unfold Recorder.StartRecording
    rw [h]
    exact ⟨_, rfl, rfl, rfl⟩
  · intro h
    unfold Recorder.checkAndStartAutoRecording
    exact tick_fold_lookup_preserved tenv m.pathConfs m name t h
  · intro h
    exact ⟨startRecording_keys_nodup m env params h,
           tick_fold_keys_nodup tenv m.pathConfs m h⟩

/-- Witness for C2 on the concrete manager that already records `cam1`:
starting again reports `existed=true` with the same task id and state,
the tick leaves the registered task in place, and key uniqueness holds
after both operations. -/
theorem C2_at_most_one_task_witness :
    (∃ resp, Recorder.StartRecording mgrWithTask envAllOk paramsDefaultTimeout =
        (Except.ok resp, mgrWithTask) ∧
      resp.existed = true ∧ resp.id = taskFixture.id) ∧
    mapLookup (Recorder.checkAndStartAutoRecording tickEnvFixture mgrWithTask).tasks "cam1" =
      some taskFixture ∧
    (((Recorder.StartRecording mgrWithTask envAllOk paramsDefaultTimeout).2.tasks).map
        Prod.fst).Nodup ∧
    (((Recorder.checkAndStartAutoRecording tickEnvFixture mgrWithTask).tasks).map
        Prod.fst).Nodup := by
  have h := C2_at_most_one_task mgrWithTask envAllOk tickEnvFixture paramsDefaultTimeout
    "cam1" taskFixture taskFixture
  have hn := h.2.2 (by decide)
  exact ⟨h.1 rfl, h.2.1 rfl, hn.1, hn.2⟩

/-- `getOrCreateCaptureState` hands out exactly the counters `stateOf`
describes (the registered entry, or zeroes). -/
theorem getOrCreate_fst (cs : List (String × Recorder.CaptureState)) (p : String) :
    (Recorder.getOrCreateCaptureState cs p).1 = Recorder.stateOf cs p := by
  unfold Recorder.getOrCreateCaptureState Recorder.stateOf
  cases hc : mapLookup cs p <;> simp [hc]

/-- After `getOrCreateCaptureState`, the path is registered with the
counters `stateOf` describes. -/
theorem getOrCreate_snd_lookup (cs : List (String × Recorder.CaptureState)) (p : String) :
    mapLookup (Recorder.getOrCreateCaptureState cs p).2 p =
      some (Recorder.stateOf cs p) := by
  unfold Recorder.getOrCreateCaptureState Recorder.stateOf
  cases hc : mapLookup cs p with
  | some s => simp [hc]
  | none =>
      simp only [hc]
      rw [mapLookup_append_of_none _ hc]
      simp [mapLookup_cons]

/-- Reduction of the smart gate on a successful observation: with the
checker installed, the IP parsed, `n ≠ 0` inputs available and a color
value `v`, the gate is a three-way case split on the incremented
counters. -/
theorem gate_reduction (cs : List (String × Recorder.CaptureState)) (pathName : String)
    (pathConf : ConfPath) (ip : String) (n v : Int) (hn : ¬n = 0) :
    Recorder.shouldStartNetworkCaptureRecording true cs pathName pathConf
        ⟨Except.ok ip, Except.ok n, Except.ok v⟩ =
      (if (Recorder.stateOf cs pathName).pingCount + 1 ≥ 3 ∧
          (Recorder.stateOf cs pathName).colorfulValue + v >
            (if pathConf.recordMinThreshold ≤ 0 then 1 else pathConf.recordMinThreshold) then
         (true, mapInsert (Recorder.getOrCreateCaptureState cs pathName).2 pathName
            Recorder.CaptureState.reset)
       else if (Recorder.stateOf cs pathName).pingCount + 1 > 12 then
         (false, mapInsert (Recorder.getOrCreateCaptureState cs pathName).2 pathName
            Recorder.CaptureState.reset)
       else
         (false, mapInsert (Recorder.getOrCreateCaptureState cs pathName).2 pathName
            ⟨(Recorder.stateOf cs pathName).pingCount + 1,
             (Recorder.stateOf cs pathName).colorfulValue + v⟩)) := by
  simp only [Recorder.shouldStartNetworkCaptureRecording]
  rw [← getOrCreate_fst cs pathName]
  simp [hn]

/-- C1 (amended): on a successful observation the gate admits iff, after
incrementing, `pingCount >= 3` and the accumulated `colorfulValue` (the
sum of the observations since the last reset) exceeds the effective
threshold; admission resets the counters; without admission the counters
are kept, except that they are reset once `pingCount` exceeds 12. -/
theorem C1_gate_admission (cs : List (String × Recorder.CaptureState)) (pathName : String)
    (pathConf : ConfPath) (ip : String) (n v : Int) (hn : ¬n = 0) :
    ((Recorder.shouldStartNetworkCaptureRecording true cs pathName pathConf
        ⟨Except.ok ip, Except.ok n, Except.ok v⟩).1 = true ↔
      ((Recorder.stateOf cs pathName).pingCount + 1 ≥ 3 ∧
       (Recorder.stateOf cs pathName).colorfulValue + v >
         (if pathConf.recordMinThreshold ≤ 0 then 1 else pathConf.recordMinThreshold))) ∧
    ((Recorder.shouldStartNetworkCaptureRecording true cs pathName pathConf
        ⟨Except.ok ip, Except.ok n, Except.ok v⟩).1 = true →
      Recorder.stateOf (Recorder.shouldStartNetworkCaptureRecording true cs pathName pathConf
        ⟨Except.ok ip, Except.ok n, Except.ok v⟩).2 pathName =
        Recorder.CaptureState.reset) ∧
    ((Recorder.shouldStartNetworkCaptureRecording true cs pathName pathConf
        ⟨Except.ok ip, Except.ok n, Except.ok v⟩).1 = false →
      (Recorder.stateOf cs pathName).pingCount + 1 > 12 →
      Recorder.stateOf (Recorder.shouldStartNetworkCaptureRecording true cs pathName pathConf
        ⟨Except.ok ip, Except.ok n, Except.ok v⟩).2 pathName =
        Recorder.CaptureState.reset) ∧
    ((Recorder.shouldStartNetworkCaptureRecording true cs pathName pathConf
        ⟨Except.ok ip, Except.ok n, Except.ok v⟩).1 = false →
      (Recorder.stateOf cs pathName).pingCount + 1 ≤ 12 →
      Recorder.stateOf (Recorder.shouldStartNetworkCaptureRecording true cs pathName pathConf
        ⟨Except.ok ip, Except.ok n, Except.ok v⟩).2 pathName =
        ⟨(Recorder.stateOf cs pathName).pingCount + 1,
         (Recorder.stateOf cs pathName).colorfulValue + v⟩) := by
  have key := gate_reduction cs pathName pathConf ip n v hn
  have hins : ∀ x : Recorder.CaptureState,
      Recorder.stateOf (mapInsert (Recorder.getOrCreateCaptureState cs pathName).2 pathName x)
        pathName = x := by
    intro x
    unfold Recorder.stateOf
    rw [mapLookup_mapInsert_self]
    rfl
  by_cases hcond : ((Recorder.stateOf cs pathName).pingCount + 1 ≥ 3 ∧
      (Recorder.stateOf cs pathName).colorfulValue + v >
        (if pathConf.recordMinThreshold ≤ 0 then 1 else pathConf.recordMinThreshold))
  · rw [if_pos hcond] at key
    refine ⟨?_, ?_, ?_, ?_⟩
    · rw [key]
      simpa using hcond
    · intro _
      rw [key]
      exact hins _
    · intro hfalse _
      rw [key] at hfalse
      simp at hfalse
    · intro hfalse _
      rw [key] at hfalse
      simp at hfalse
  · rw [if_neg hcond] at key
    by_cases h12 : (Recorder.stateOf cs pathName).pingCount + 1 > 12
    · rw [if_pos h12] at key
      refine ⟨?_, ?_, ?_, ?_⟩
      · rw [key]
        simpa using hcond
      · intro htrue
        rw [key] at htrue
        simp at htrue
      · intro _ _
        rw [key]
        exact hins _
      · intro _ hle
        exact absurd h12 (not_lt.mpr hle)
    · rw [if_neg h12] at key
      refine ⟨?_, ?_, ?_, ?_⟩
      · rw [key]
        simpa using hcond
      · intro htrue
        rw [key] at htrue
        simp at htrue
      · intro _ hgt
        exact absurd hgt h12
      · intro _ _
        rw [key]
        exact hins _

/-- Counterexample to C1 as stated: with threshold 10, observing
`[10, 0, 0, 1]` the gate admits on the fourth tick (the accumulated sum
11 exceeds 10) even though the last three observations `0, 0, 1` sum to
1 ≤ 10 — the gate accumulates since the last reset, it does not slide
over the last three observations. -/
theorem C1_counterexample :
    Recorder.gateDecisions confCapture10 "cam1" [10, 0, 0, 1] =
      [false, false, false, true] ∧
    ((0 : Int) + 0 + 1 ≤ confCapture10.recordMinThreshold) := by
  constructor
  · decide
  · decide

/-- Witness for C1 at a registered state `(2, 5)` and observation 6: the
third tick admits (3 ≥ 3, 11 > 10) and resets the counters. -/
theorem C1_gate_admission_witness :
    (Recorder.shouldStartNetworkCaptureRecording true [("cam1", ⟨2, 5⟩)] "cam1" confCapture10
        ⟨Except.ok "192.168.1.50", Except.ok 1, Except.ok 6⟩).1 = true ∧
    Recorder.stateOf (Recorder.shouldStartNetworkCaptureRecording true [("cam1", ⟨2, 5⟩)]
        "cam1" confCapture10
        ⟨Except.ok "192.168.1.50", Except.ok 1, Except.ok 6⟩).2 "cam1" =
      Recorder.CaptureState.reset := by
  have h := C1_gate_admission [("cam1", ⟨2, 5⟩)] "cam1" confCapture10 "192.168.1.50" 1 6
    (by decide)
  have hadm := h.1.mpr (by decide)
  exact ⟨hadm, h.2.1 hadm⟩

/-- Counterexample to C3 as stated: both handlers hand every manager error
to `writeError` with status 500. A start on a missing path answers 500
(not 404), a start on a path nobody publishes to answers 500 (not 409),
and a stop with no active task answers 500 (not 404) — only the error
message `task id that does not exist` matches the claim. -/
theorem C3_counterexample :
    (ApiV2.onRecordStart (some paramsDefaultTimeout) envPathMissing mgrEmpty).status = 500 ∧
    ¬(ApiV2.onRecordStart (some paramsDefaultTimeout) envPathMissing mgrEmpty).status = 404 ∧
    (ApiV2.onRecordStart (some paramsDefaultTimeout) envPathMissing mgrEmpty).errorMessage =
      some "path 'cam1' not found" ∧
    (ApiV2.onRecordStart (some paramsDefaultTimeout) envNotReady mgrEmpty).status = 500 ∧
    ¬(ApiV2.onRecordStart (some paramsDefaultTimeout) envNotReady mgrEmpty).status = 409 ∧
    (ApiV2.onRecordStart (some paramsDefaultTimeout) envNotReady mgrEmpty).errorMessage =
      some "no one is publishing to path 'cam1'" ∧
    (ApiV2.onRecordStop (some "cam1") mgrEmpty).status = 500 ∧
    ¬(ApiV2.onRecordStop (some "cam1") mgrEmpty).status = 404 ∧
    (ApiV2.onRecordStop (some "cam1") mgrEmpty).errorMessage =
      some "task id that does not exist" := by
  decide

/-- C3 (amended): `/record/start` answers 400 on a binding failure or an
invalid `videoFormat`, and 500 (with the manager's message) on every
`StartRecording` error — path not found, nobody publishing, and start
failure alike; `/record/stop` answers 400 on a binding failure and 500
with message `task id that does not exist` when no task is registered. -/
theorem C3_status_codes (m : Recorder.Manager) (env : Recorder.CallEnv) :
    (ApiV2.onRecordStart none env m).status = 400 ∧
    (∀ params : Recorder.StartParams, params.videoFormat ≠ "mp4" →
       params.videoFormat ≠ "ts" →
       (ApiV2.onRecordStart (some params) env m).status = 400) ∧
    (∀ (params : Recorder.StartParams) (e : String) (m1 : Recorder.Manager),
       (params.videoFormat = "mp4" ∨ params.videoFormat = "ts") →
       Recorder.StartRecording m env params = (Except.error e, m1) →
       ApiV2.onRecordStart (some params) env m = ⟨500, some e, m1⟩) ∧
    (ApiV2.onRecordStop none m).status = 400 ∧
    (∀ name, mapLookup m.tasks name = none →
       ApiV2.onRecordStop (some name) m =
         ⟨500, some "task id that does not exist", m⟩) := by
  refine ⟨rfl, ?_, ?_, rfl, ?_⟩
  · intro params h1 h2
    simp only [ApiV2.onRecordStart]
    rw [if_pos ⟨h1, h2⟩]
  · intro params e m1 hfmt hsr
    simp only [ApiV2.onRecordStart]
    have hne : ¬(params.videoFormat ≠ "mp4" ∧ params.videoFormat ≠ "ts") := by
      rcases hfmt with h | h <;> simp [h]
    rw [if_neg hne, hsr]
  · intro name hnone
    simp only [ApiV2.onRecordStop]
    unfold Recorder.StopRecording
    rw [hnone]

/-- Witness for C3 at concrete requests: the missing-path start and the
no-task stop both answer 500 with the manager's message. -/
theorem C3_status_codes_witness :
    ApiV2.onRecordStart (some paramsDefaultTimeout) envPathMissing mgrEmpty =
      ⟨500, some "path 'cam1' not found", mgrEmpty⟩ ∧
    ApiV2.onRecordStop (some "cam1") mgrEmpty =
      ⟨500, some "task id that does not exist", mgrEmpty⟩ := by
  have h := C3_status_codes mgrEmpty envPathMissing
  exact ⟨h.2.2.1 paramsDefaultTimeout "path 'cam1' not found" mgrEmpty (Or.inl rfl)
      (by decide),
    h.2.2.2.2 "cam1" rfl⟩

/-- Invariant of the `minDaysAgo` fold from a nonnegative accumulator:
the result stays nonnegative; it is zero only when the accumulator was
zero and no retention is positive; and a nonzero result is the
accumulator or one of the retentions, bounds every positive retention
from below, is positive, and never exceeds a nonzero accumulator. -/
theorem minFold_spec (confs : List ConfPath) (acc : Int) (hacc : 0 ≤ acc) :
    (0 ≤ confs.foldl RecordCleaner.minDaysStep acc) ∧
    (confs.foldl RecordCleaner.minDaysStep acc = 0 →
       acc = 0 ∧ ∀ c ∈ confs, c.recordClearDaysAgo ≤ 0) ∧
    (confs.foldl RecordCleaner.minDaysStep acc ≠ 0 →
       (confs.foldl RecordCleaner.minDaysStep acc = acc ∨
        ∃ c ∈ confs, c.recordClearDaysAgo = confs.foldl RecordCleaner.minDaysStep acc) ∧
       (∀ c ∈ confs, 0 < c.recordClearDaysAgo →
          confs.foldl RecordCleaner.minDaysStep acc ≤ c.recordClearDaysAgo) ∧
       0 < confs.foldl RecordCleaner.minDaysStep acc ∧
       (acc ≠ 0 → confs.foldl RecordCleaner.minDaysStep acc ≤ acc)) := by
  induction confs generalizing acc with
  | nil =>
      refine ⟨hacc, ?_, ?_⟩
      · intro h
        exact ⟨h, by simp⟩
      · intro h
        exact ⟨Or.inl rfl, by simp, lt_of_le_of_ne hacc (Ne.symm h), fun _ => le_refl _⟩
  | cons c rest ih =>
      have hstep : 0 ≤ RecordCleaner.minDaysStep acc c := by
        unfold RecordCleaner.minDaysStep
        split
        · rename_i hcnd
          exact le_of_lt hcnd.1
        · exact hacc
      have ih' := ih (RecordCleaner.minDaysStep acc c) hstep
      rw [List.foldl_cons]
      refine ⟨ih'.1, ?_, ?_⟩
      · intro h0
        have h' := ih'.2.1 h0
        have hsz := h'.1
        unfold RecordCleaner.minDaysStep at hsz
        by_cases hcnd : (c.recordClearDaysAgo > 0 ∧ (acc = 0 ∨ c.recordClearDaysAgo < acc))
        · rw [if_pos hcnd] at hsz
          exact absurd hsz (ne_of_gt hcnd.1)
        · rw [if_neg hcnd] at hsz
          refine ⟨hsz, ?_⟩
          intro c' hc'
          rcases List.mem_cons.mp hc' with rfl | hmem
          · by_contra hpos
            exact hcnd ⟨not_le.mp hpos, Or.inl hsz⟩
          · exact h'.2 c' hmem
      · intro hne
        obtain ⟨hsrc, hmin, hpos, hlea⟩ := ih'.2.2 hne
        refine ⟨?_, ?_, hpos, ?_⟩
        · rcases hsrc with heq | ⟨c', hc', hval⟩
          · by_cases hcnd : (c.recordClearDaysAgo > 0 ∧ (acc = 0 ∨ c.recordClearDaysAgo < acc))
            · have hstepv : RecordCleaner.minDaysStep acc c = c.recordClearDaysAgo :=
                if_pos hcnd
              exact Or.inr ⟨c, List.mem_cons_self c rest, (heq.trans hstepv).symm⟩
            · have hstepv : RecordCleaner.minDaysStep acc c = acc := if_neg hcnd
              exact Or.inl (heq.trans hstepv)
          · exact Or.inr ⟨c', List.mem_cons_of_mem c hc', hval⟩
        · intro c' hc' hcp
          rcases List.mem_cons.mp hc' with rfl | hmem
          · by_cases hcnd : (c'.recordClearDaysAgo > 0 ∧ (acc = 0 ∨ c'.recordClearDaysAgo < acc))
            · have hstepv : RecordCleaner.minDaysStep acc c' = c'.recordClearDaysAgo := if_pos hcnd
              have hsne : RecordCleaner.minDaysStep acc c' ≠ 0 := by
                rw [hstepv]
                exact ne_of_gt hcp
              calc rest.foldl RecordCleaner.minDaysStep (RecordCleaner.minDaysStep acc c') ≤ RecordCleaner.minDaysStep acc c' :=
                    hlea hsne
                _ = c'.recordClearDaysAgo := hstepv
            · have hstepv : RecordCleaner.minDaysStep acc c' = acc := if_neg hcnd
              have hor : ¬(acc = 0 ∨ c'.recordClearDaysAgo < acc) := fun hor =>
                hcnd ⟨hcp, hor⟩
              push_neg at hor
              have hsne : RecordCleaner.minDaysStep acc c' ≠ 0 := by
                rw [hstepv]
                exact hor.1
              calc rest.foldl RecordCleaner.minDaysStep (RecordCleaner.minDaysStep acc c') ≤ RecordCleaner.minDaysStep acc c' :=
                    hlea hsne
                _ = acc := hstepv
                _ ≤ c'.recordClearDaysAgo := hor.2
          · exact hmin c' hmem hcp
        · intro hane
          by_cases hcnd : (c.recordClearDaysAgo > 0 ∧ (acc = 0 ∨ c.recordClearDaysAgo < acc))
          · have hstepv : RecordCleaner.minDaysStep acc c = c.recordClearDaysAgo := if_pos hcnd
            have hsne : RecordCleaner.minDaysStep acc c ≠ 0 := by
              rw [hstepv]
              exact ne_of_gt hcnd.1
            have hlt : c.recordClearDaysAgo < acc := by
              rcases hcnd.2 with h0 | hlt
              · exact absurd h0 hane
              · exact hlt
            calc rest.foldl RecordCleaner.minDaysStep (RecordCleaner.minDaysStep acc c) ≤ RecordCleaner.minDaysStep acc c := hlea hsne
              _ = c.recordClearDaysAgo := hstepv
              _ ≤ acc := le_of_lt hlt
          · have hstepv : RecordCleaner.minDaysStep acc c = acc := if_neg hcnd
            have hsne : RecordCleaner.minDaysStep acc c ≠ 0 := by
              rw [hstepv]
              exact hane
            calc rest.foldl RecordCleaner.minDaysStep (RecordCleaner.minDaysStep acc c) ≤ RecordCleaner.minDaysStep acc c := hlea hsne
              _ = acc := hstepv

/-- `minDaysAgo` is zero exactly when no retention is positive, and a
nonzero `minDaysAgo` is the minimum positive retention. -/
theorem RecordCleaner.minDaysAgo_spec (confs : List ConfPath) :
    (RecordCleaner.minDaysAgo confs = 0 → ∀ c ∈ confs, c.recordClearDaysAgo ≤ 0) ∧
    (RecordCleaner.minDaysAgo confs ≠ 0 →
       0 < RecordCleaner.minDaysAgo confs ∧
       (∃ c ∈ confs, c.recordClearDaysAgo = RecordCleaner.minDaysAgo confs) ∧
       ∀ c ∈ confs, 0 < c.recordClearDaysAgo →
         RecordCleaner.minDaysAgo confs ≤ c.recordClearDaysAgo) := by
  have h := minFold_spec confs 0 (le_refl 0)
  constructor
  · intro h0
    exact (h.2.1 h0).2
  · intro hne
    obtain ⟨hsrc, hmin, hpos, _⟩ := h.2.2 hne
    refine ⟨hpos, ?_, hmin⟩
    rcases hsrc with heq | hex
    · exact absurd heq hne
    · exact hex

/-- C5: a cleaner run with no positive `recordClearDaysAgo` removes
nothing; otherwise `minDaysAgo` is the minimum positive retention and,
when the run proceeds (a record root that exists), exactly the
directory-entries named like `YYYYMMDD` and lexicographically below the
cutoff `today - minDaysAgo` are removed — nothing else. -/
theorem C5_cleaner_run (recordPath : String) (confs : List ConfPath)
    (env : RecordCleaner.CleanerEnv) :
    ((∀ c ∈ confs, c.recordClearDaysAgo ≤ 0) →
       RecordCleaner.doRun recordPath confs env = []) ∧
    (RecordCleaner.minDaysAgo confs ≠ 0 →
       (0 < RecordCleaner.minDaysAgo confs ∧
        (∃ c ∈ confs, c.recordClearDaysAgo = RecordCleaner.minDaysAgo confs) ∧
        ∀ c ∈ confs, 0 < c.recordClearDaysAgo →
          RecordCleaner.minDaysAgo confs ≤ c.recordClearDaysAgo) ∧
       (recordPath ≠ "" → env.rootOk = true →
        ∀ nm, nm ∈ RecordCleaner.doRun recordPath confs env ↔
          ∃ e ∈ env.entries,
            (e.isDir = true ∧ datePatternMatch e.name = true ∧
             strLt e.name (RecordCleaner.formatYYYYMMDD
               (RecordCleaner.addDays env.today (-RecordCleaner.minDaysAgo confs))) = true) ∧
            e.name = nm)) := by
  constructor
  · intro hall
    have h0 : RecordCleaner.minDaysAgo confs = 0 := by
      by_contra hne
      obtain ⟨hpos, ⟨c, hc, hval⟩, _⟩ := (RecordCleaner.minDaysAgo_spec confs).2 hne
      have hle := hall c hc
      rw [hval] at hle
      exact absurd hpos (not_lt.mpr hle)
    simp only [RecordCleaner.doRun]
    split
    · rfl
    · split
      · rfl
      · simp [h0]
  · intro hne
    refine ⟨(RecordCleaner.minDaysAgo_spec confs).2 hne, ?_⟩
    intro hrp hroot nm
    simp only [RecordCleaner.doRun]
    rw [if_neg hrp, if_neg (by simp [hroot]), if_neg hne]
    rw [List.mem_filterMap]
    constructor
    · rintro ⟨e, he, hf⟩
      by_cases hcond : (e.isDir = true ∧ datePatternMatch e.name = true ∧
          strLt e.name (RecordCleaner.formatYYYYMMDD
            (RecordCleaner.addDays env.today (-RecordCleaner.minDaysAgo confs))) = true)
      · rw [if_pos hcond] at hf
        exact ⟨e, he, hcond, Option.some.inj hf⟩
      · rw [if_neg hcond] at hf
        cases hf
    · rintro ⟨e, he, hcond, hname⟩
      refine ⟨e, he, ?_⟩
      rw [if_pos hcond]
      exact congrArg some hname

/-- Witness for C5 at the spec's literal scenario: retentions `{60, 30, 0}`
give `RecordCleaner.minDaysAgo = 30`; on 2024-07-20 the cutoff is `20240620`, directory
`20240101` is removed and `20240715` is kept. -/
theorem C5_cleaner_run_witness :
    "20240101" ∈ RecordCleaner.doRun "/recordings" cleanerConfs cleanerEnvFixture ∧
    RecordCleaner.minDaysAgo cleanerConfs = 30 ∧
    "20240715" ∉ RecordCleaner.doRun "/recordings" cleanerConfs cleanerEnvFixture := by
  have h := C5_cleaner_run "/recordings" cleanerConfs cleanerEnvFixture
  have h2 := h.2 (by decide)
  refine ⟨?_, by decide, ?_⟩
  · exact (h2.2 (by decide) rfl "20240101").mpr
      ⟨⟨"20240101", true⟩, by decide, by decide, rfl⟩
  · intro hmem
    exact absurd ((h2.2 (by decide) rfl "20240715").mp hmem) (by decide)

end MediamtxPro
